import Mathlib

/-!
A verification development for `app/services/chat_service.py` of the
next-fastapi-ai-agent repository.

The Python module is embedded shallowly:

* `AiConfig`, `Message`, `ContentPart`, `TokenUsage` and `ChatTurn`
  (`IRouterChatLog`) mirror the dict/model shapes the service manipulates.
* The tokenizer returned by `_get_encoding(model)` is external (tiktoken);
  it is abstracted as a parameter `enc : String → Option Nat` giving the
  length of the encoding of a string, where `none` models a raised
  exception inside `encode`.  `_get_encoding` itself never raises (it
  falls back to `cl100k_base`), so only the `encode` calls are fallible.
* Python `float` arithmetic on billing rates is embedded as exact `ℚ`
  arithmetic; the literal `0.001` is the exact rational `1/1000`.
* The generation flows are embedded as event traces recording the calls
  to the external collaborators (point service, provider, database).
-/

namespace ChatService

/-- Billing/provider configuration (`AiConfig` in `app/models/chat.py`),
read-only per request. -/
structure AiConfig where
  provider : String
  model : String
  inputCost : ℚ
  outputCost : ℚ
  multiplier : ℚ
  imageSupport : Bool
  deriving Repr, DecidableEq

/-- One historical exchange (`IRouterChatLog`): a prompt and a response,
either possibly empty.  Python truthiness of a possibly-empty string is
`≠ ""`. -/
structure ChatTurn where
  prompt : String
  response : String
  deriving Repr, DecidableEq

/-- One element of a list-valued message `content`.  In the source these
are dicts `{type, text, image_url: {detail}, source}`; the fields the
service reads are the `type` tag, the `text` value, and the nested
`image_url.detail` hint, each absent (`none`) when the dict lacks the key. -/
structure ContentPart where
  ptype : Option String
  ptext : Option String
  detail : Option String
  deriving Repr, DecidableEq

/-- Message content: either a plain string or a list of parts.  Every
message this module constructs has one of these two shapes. -/
inductive Content where
  | str (s : String)
  | parts (ps : List ContentPart)
  deriving Repr, DecidableEq

/-- A chat message dict `{role, content, name?}`. -/
structure Message where
  role : String
  content : Content
  name : Option String := none
  deriving Repr, DecidableEq

/-- The `{prompt_tokens, completion_tokens, total_tokens}` dict. -/
structure TokenUsage where
  prompt_tokens : Int
  completion_tokens : Int
  total_tokens : Int
  deriving Repr, DecidableEq

/-- Python's `str.lower()`, over the character list of the string. -/
def pyLower (s : String) : String := ⟨s.data.map Char.toLower⟩

/-- `ChatService.get_points`: the billing contract
`(inputToken * inputCost + outputToken * outputCost) * multiplier / 0.001`. -/
def get_points (inputToken outputToken : Int) (ai_config : AiConfig) : ℚ :=
  ((inputToken : ℚ) * ai_config.inputCost + (outputToken : ℚ) * ai_config.outputCost)
    * ai_config.multiplier / (0.001 : ℚ)

/-- `ChatService.estimate_image_tokens`: one token per four characters of
the prompt, no completion tokens.  (`len` never raises, so the
`except` branch returning zeroes is unreachable.) -/
def estimate_image_tokens (prompt : String) : TokenUsage :=
  let char_count := prompt.length
  let estimated_tokens : Int := char_count / 4
  { prompt_tokens := estimated_tokens
    completion_tokens := 0
    total_tokens := estimated_tokens }

/-- `ChatService.estimate_audio_tokens`: one token per four characters of
the input text, no completion tokens. -/
def estimate_audio_tokens (text : String) : TokenUsage :=
  let char_count := text.length
  let estimated_tokens : Int := char_count / 4
  { prompt_tokens := estimated_tokens
    completion_tokens := 0
    total_tokens := estimated_tokens }

/-- A tiktoken encoding, abstracted: the token count `len(encoding.encode s)`
of a string, `none` modelling a raised exception inside `encode`.
`_get_encoding(model)` itself never raises (unknown models fall back to
`cl100k_base`), so the encoding obtained for any model is one such function. -/
abbrev Encoding := String → Option Nat

/-- Token count of one list-content item in `ChatService.estimate_tokens`:
text parts are encoded, `image_url` parts cost 85 when `detail == "low"`
and 170 otherwise (`detail` defaults to `"auto"`), `image` parts cost 170,
anything else contributes nothing. -/
def part_tokens (enc : Encoding) (p : ContentPart) : Option Int :=
  if p.ptype = some "text" then (enc (p.ptext.getD "")).map Int.ofNat
  else if p.ptype = some "image_url" then
    some (if p.detail.getD "auto" = "low" then 85 else 170)
  else if p.ptype = some "image" then some 170
  else some 0

/-- Sum of `part_tokens` over a list content. -/
def parts_tokens (enc : Encoding) : List ContentPart → Option Int
  | [] => some 0
  | p :: ps =>
      (part_tokens enc p).bind fun a =>
        (parts_tokens enc ps).map fun b => a + b

/-- Token count of a message `content` value in `ChatService.estimate_tokens`. -/
def content_tokens (enc : Encoding) : Content → Option Int
  | Content.str s => (enc s).map Int.ofNat
  | Content.parts ps => parts_tokens enc ps

/-- Contribution of the `name` field: its encoded value, together with the
`-1` adjustment applied when the key is present. -/
def name_tokens (enc : Encoding) : Option String → Option Int
  | some n => (enc n).map fun t => Int.ofNat t - 1
  | none => some 0

/-- Per-message count in `ChatService.estimate_tokens`: 4 tokens of
per-message overhead, plus the encoded `role` (every non-`content` string
field is encoded), plus the content tokens, plus the `name` contribution. -/
def message_tokens (enc : Encoding) (m : Message) : Option Int :=
  (enc m.role).bind fun roleTokens =>
    (content_tokens enc m.content).bind fun contentTokens =>
      (name_tokens enc m.name).map fun nameTokens =>
        4 + Int.ofNat roleTokens + contentTokens + nameTokens

/-- Sum of `message_tokens` over a message list. -/
def messages_tokens (enc : Encoding) : List Message → Option Int
  | [] => some 0
  | m :: ms =>
      (message_tokens enc m).bind fun a =>
        (messages_tokens enc ms).map fun b => a + b

/-- `ChatService.estimate_tokens`: per-message counts plus the 2 tokens of
reply priming.  An `encode` exception propagates to the caller. -/
def estimate_tokens (enc : Encoding) (messages : List Message) : Option Int :=
  (messages_tokens enc messages).map (· + 2)

/-- `ChatService.estimate_response_tokens`: `min(int(prompt_tokens * 1.5), 2000)`.
`int(p * 1.5)` truncates `3p/2` toward zero, which `Int.tdiv` reproduces
(exact for every count reachable here, far below the 2^52 float boundary). -/
def estimate_response_tokens (prompt_tokens : Int) : Int :=
  min ((3 * prompt_tokens).tdiv 2) 2000

/-- `ChatService.estimate_total_tokens`: prompt tokens of the message list
plus the encoded system template and retrieved context, with estimated
response tokens.  The `except` branch re-raises, hence `none` on failure. -/
def estimate_total_tokens (enc : Encoding) (messages : List Message)
    (system_template : String) (context : String := "") : Option TokenUsage :=
  (estimate_tokens enc messages).bind fun base =>
    (enc system_template).bind fun st =>
      (enc context).map fun ctx =>
        let prompt_tokens := base + Int.ofNat st + Int.ofNat ctx
        let response_tokens := estimate_response_tokens prompt_tokens
        { prompt_tokens := prompt_tokens
          completion_tokens := response_tokens
          total_tokens := prompt_tokens + response_tokens }

/-- `ChatService.track_actual_token_usage`: prompt tokens via
`estimate_tokens` on the finalized message list, completion tokens by
encoding the realized response; any failure is recovered by returning the
all-zero usage dict. -/
def track_actual_token_usage (enc : Encoding) (messages : List Message)
    (response : String) : TokenUsage :=
  match (estimate_tokens enc messages).bind
      (fun prompt_tokens => (enc response).map
        fun completion_tokens => (prompt_tokens, Int.ofNat completion_tokens)) with
  | some pc =>
      { prompt_tokens := pc.1, completion_tokens := pc.2,
        total_tokens := pc.1 + pc.2 }
  | none => { prompt_tokens := 0, completion_tokens := 0, total_tokens := 0 }

/-- Python's `str.strip()`: drop whitespace from both ends. -/
def pyStrip (s : String) : String :=
  ⟨((s.data.dropWhile Char.isWhitespace).reverse.dropWhile Char.isWhitespace).reverse⟩

/-- The per-item test of `ChatService._has_content` on list content: the
item's `text` value (defaulting to `""`) strips to something non-empty, or
the item's `type` is `"image_url"` or `"image"`. -/
def item_has_content (p : ContentPart) : Bool :=
  !(pyStrip (p.ptext.getD "") == "") ||
    (p.ptype == some "image_url" || p.ptype == some "image")

/-- `ChatService._has_content`: falsy content is rejected outright; string
content must strip to something non-empty; list content must have some item
passing `item_has_content`.  (The source also accepts a dict content with a
non-blank `text` value; no message this module builds has that shape.) -/
def _has_content (m : Message) : Bool :=
  match m.content with
  | Content.str s => if s == "" then false else !(pyStrip s == "")
  | Content.parts ps => if ps == [] then false else ps.any item_has_content

/-- `{"role": "user", "content": s}`. -/
def userMessage (s : String) : Message := ⟨"user", Content.str s, none⟩

/-- `{"role": "assistant", "content": s}`. -/
def assistantMessage (s : String) : Message := ⟨"assistant", Content.str s, none⟩

/-- The history loop shared by the non-deepseek branch of
`get_chat_messages` and the tail of its deepseek branch: per turn, a user
message if the prompt is non-empty, then an assistant message if the
response is non-empty. -/
def flatten_history : List ChatTurn → List Message
  | [] => []
  | c :: cs =>
      (if c.prompt ≠ "" then [userMessage c.prompt] else []) ++
        (if c.response ≠ "" then [assistantMessage c.response] else []) ++
        flatten_history cs

/-- `ChatService.get_chat_messages`.  `db.get_system_prompt()`, consulted
only when `provider == "edith"` (a case-sensitive comparison in the
source), is abstracted as the parameter `edithPrompt`. -/
def get_chat_messages (edithPrompt : String) (chat_history : List ChatTurn)
    (provider : String) : List Message × String :=
  let system_prompt := if provider ≠ "edith" then "" else edithPrompt
  let base : List Message :=
    if pyLower provider ≠ "anthropic" then
      [⟨"system", Content.str system_prompt, none⟩]
    else []
  if pyLower provider = "deepseek" then
    let valid_history :=
      chat_history.filter fun c => !(c.prompt == "") || !(c.response == "")
    match valid_history with
    | [] => (base, system_prompt)
    | first :: rest =>
        if first.prompt = "" then (base, system_prompt)
        else
          (base ++ [userMessage first.prompt] ++
            (if first.response ≠ "" then [assistantMessage first.response] else []) ++
            flatten_history rest,
           system_prompt)
  else
    (base ++ flatten_history chat_history, system_prompt)

/-- The anthropic fix-up of the multimodal branches (stream lines 358–367,
sync lines 746–755): walk to the first `user` message and fold the system
content into it — prefixed with `"\n\n"` onto string content, inserted as a
leading `{"type": "text"}` item into list content. -/
def fold_system_into (system_content : String) (m : Message) : Message :=
  match m.content with
  | Content.str s =>
      { m with content := Content.str (system_content ++ "\n\n" ++ s) }
  | Content.parts ps =>
      { m with content :=
          Content.parts (⟨some "text", some system_content, none⟩ :: ps) }

/-- The search loop around `fold_system_into`: only the first `user`
message is modified, every other message is kept as-is. -/
def prepend_system_to_first_user (system_content : String) :
    List Message → List Message
  | [] => []
  | m :: ms =>
      if m.role = "user" then fold_system_into system_content m :: ms
      else m :: prepend_system_to_first_user system_content ms

/-- The `direct_messages` list of the multimodal branches (stream lines
340–367, sync lines 727–755): a system message unless the provider is
anthropic, then the history entries passing `_has_content` copied as
`{role, content}` dicts, then the current question; for anthropic the
system content is folded into the first user message afterwards. -/
def build_direct_messages (provider system_content : String)
    (history : List Message) (current_question_msg : Message) : List Message :=
  let direct :=
    (if pyLower provider ≠ "anthropic" then
      [(⟨"system", Content.str system_content, none⟩ : Message)]
     else []) ++
    ((history.filter _has_content).map fun m =>
      (⟨m.role, m.content, none⟩ : Message)) ++
    [current_question_msg]
  if pyLower provider = "anthropic" ∧ direct ≠ [] then
    prepend_system_to_first_user system_content direct
  else direct

/-- `str()` of a message content as the template paths use it; every
message reaching them from `get_chat_messages` carries string content. -/
def content_str : Content → String
  | Content.str s => s
  | Content.parts _ => ""

/-- The `ChatPromptTemplate.from_messages` list of the no-files branch of
`generate_text_response` (lines 806–844): one system template entry built
unconditionally from `system_prompt`, the history entries passing
`_has_content` as human/AI templates, then the current question. -/
def generate_text_no_files_prompt (edithPrompt : String)
    (chat_history : List ChatTurn) (provider query : String) : List Message :=
  let mp := get_chat_messages edithPrompt chat_history provider
  let messages := mp.1 ++ [userMessage query]
  let system_template := mp.2 ++ "\n\nPrevious conversation:\n{chat_history}"
  [⟨"system", Content.str system_template, none⟩] ++
    ((messages.dropLast.filter _has_content).map fun m =>
      if m.role = "user" then userMessage (content_str m.content)
      else assistantMessage (content_str m.content)) ++
    [userMessage query]

/-- The first message with role `"user"`, as the anthropic fix-up loop
finds it. -/
def firstUser : List Message → Option Message
  | [] => none
  | m :: ms => if m.role = "user" then some m else firstUser ms

/-- A constructed provider client, keeping the fields the dispatcher
varies: the bound model id, the token cap, the streaming flag, and (for
the OpenAI-compatible client) an alternate base URL. -/
inductive LLMClient where
  | chatAnthropic (model : String) (maxTokens : Nat) (streaming : Bool)
  | chatDeepSeek (model : String) (maxTokens : Nat) (streaming : Bool)
  | chatGoogleGenerativeAI (model : String) (maxTokens : Nat) (streaming : Bool)
  | chatXAI (model : String) (maxTokens : Nat) (streaming : Bool)
  | chatOllama (model : String) (maxTokens : Nat) (streaming : Bool)
  | chatMistralAI (model : String) (maxTokens : Nat) (streaming : Bool)
  | chatCerebras (model : String) (maxTokens : Nat) (streaming : Bool)
  | chatOpenAI (model : String) (maxTokens : Nat) (streaming : Bool)
      (baseUrl : Option String)
  deriving Repr, DecidableEq

/-- `ChatService._get_llm`: case-insensitive dispatch on the provider name;
`edith` is a cerebras alias pinning the model id; `openrouter` is the
OpenAI client at an alternate base URL; anything else falls through to the
plain OpenAI client.  Every branch caps tokens at 2000. -/
def _get_llm (ai_config : AiConfig) (isStream : Bool := true) : LLMClient :=
  if pyLower ai_config.provider = "anthropic" then
    LLMClient.chatAnthropic ai_config.model 2000 isStream
  else if pyLower ai_config.provider = "deepseek" then
    LLMClient.chatDeepSeek ai_config.model 2000 isStream
  else if pyLower ai_config.provider = "google" then
    LLMClient.chatGoogleGenerativeAI ai_config.model 2000 isStream
  else if pyLower ai_config.provider = "xai" then
    LLMClient.chatXAI ai_config.model 2000 isStream
  else if pyLower ai_config.provider = "ollama" then
    LLMClient.chatOllama ai_config.model 2000 isStream
  else if pyLower ai_config.provider = "mistralai" then
    LLMClient.chatMistralAI ai_config.model 2000 isStream
  else if pyLower ai_config.provider = "cerebras" ∨ pyLower ai_config.provider = "edith" then
    LLMClient.chatCerebras
      (if pyLower ai_config.provider = "edith" then "llama-3.3-70b" else ai_config.model)
      2000 isStream
  else if pyLower ai_config.provider = "openrouter" then
    LLMClient.chatOpenAI ai_config.model 2000 isStream
      (some "https://openrouter.ai/api/v1")
  else
    LLMClient.chatOpenAI ai_config.model 2000 isStream none

/-- The system content sits inside the first user message of the list:
either prefixed onto its string content or as its leading text part. -/
def system_in_first_user (system_content : String) (l : List Message) : Prop :=
  ∃ m, firstUser l = some m ∧
    ((∃ rest, m.content = Content.str (system_content ++ "\n\n" ++ rest)) ∨
     (∃ ps, m.content =
        Content.parts (⟨some "text", some system_content, none⟩ :: ps)))

/-- The deepseek history assembly exactly as the specification describes
it: filter to turns with a non-empty prompt or response; when no turn
remains, or the first remaining turn has no prompt, the whole history is
discarded; otherwise the first turn's prompt (and its response, if any)
followed by the remaining turns in order. -/
def deepseek_history_messages (chat_history : List ChatTurn) : List Message :=
  let valid :=
    chat_history.filter fun c => !(c.prompt == "") || !(c.response == "")
  match valid with
  | [] => []
  | first :: rest =>
      if first.prompt = "" then []
      else
        [userMessage first.prompt] ++
          (if first.response ≠ "" then [assistantMessage first.response] else []) ++
          flatten_history rest

/-- Per-part token cost shared by the specification's estimator formula
and the code: encoded text parts, 85 per `detail == "low"` image part,
170 per other image part. -/
def formula_part_tokens (enc : String → Nat) (p : ContentPart) : Int :=
  if p.ptype = some "text" then Int.ofNat (enc (p.ptext.getD ""))
  else if p.ptype = some "image_url" then
    (if p.detail.getD "auto" = "low" then 85 else 170)
  else if p.ptype = some "image" then 170
  else 0

/-- Content token cost for a total encoder. -/
def formula_content_tokens (enc : String → Nat) : Content → Int
  | Content.str s => Int.ofNat (enc s)
  | Content.parts ps => (ps.map (formula_part_tokens enc)).sum

/-- Per-message cost exactly as the specification's formula states it:
a fixed 4-token overhead, minus 1 when a `name` field is present, plus the
content token cost — no other field is counted. -/
def claimed_message_tokens (enc : String → Nat) (m : Message) : Int :=
  4 + (if m.name.isSome then -1 else 0) + formula_content_tokens enc m.content

/-- Prompt-token estimate as the specification's formula states it. -/
def claimed_prompt_tokens (enc : String → Nat) (messages : List Message)
    (system_template context : String) : Int :=
  (messages.map (claimed_message_tokens enc)).sum + 2 +
    Int.ofNat (enc system_template) + Int.ofNat (enc context)

/-- Full estimate as the specification's formula states it, with the
response estimate `min(int(1.5 * prompt), 2000)`. -/
def claimed_estimate_total_tokens (enc : String → Nat) (messages : List Message)
    (system_template context : String) : TokenUsage :=
  let p := claimed_prompt_tokens enc messages system_template context
  let r := min ((3 * p).tdiv 2) 2000
  { prompt_tokens := p, completion_tokens := r, total_tokens := p + r }

/-- Per-message cost as the code computes it: the specification formula
plus the encoded value of every other string field — the `role` always,
and the `name` value when present. -/
def amended_message_tokens (enc : String → Nat) (m : Message) : Int :=
  4 + Int.ofNat (enc m.role) + formula_content_tokens enc m.content +
    (match m.name with
     | some n => Int.ofNat (enc n) - 1
     | none => 0)

/-- Prompt-token estimate with the role/name encodings included. -/
def amended_prompt_tokens (enc : String → Nat) (messages : List Message)
    (system_template context : String) : Int :=
  (messages.map (amended_message_tokens enc)).sum + 2 +
    Int.ofNat (enc system_template) + Int.ofNat (enc context)

/-- Full estimate with the role/name encodings included. -/
def amended_estimate_total_tokens (enc : String → Nat) (messages : List Message)
    (system_template context : String) : TokenUsage :=
  let p := amended_prompt_tokens enc messages system_template context
  let r := min ((3 * p).tdiv 2) 2000
  { prompt_tokens := p, completion_tokens := r, total_tokens := p + r }

/-- An observable action of a generation flow on its external
collaborators: initializing the point service, reporting a missing model
config, the quota check `check_user_available_to_chat`, the provider
invocation, emitting a structured `[ERROR]` payload with its status, and
the three persistence calls. -/
inductive Event where
  | initPoint
  | invalidConfig
  | checkQuota
  | invokeProvider
  | emitError (status : Nat)
  | saveChatLog
  | saveUsageLog
  | savePoints
  deriving Repr, DecidableEq

/-- The persistence tail shared by all four flows on success:
`save_chat_log`, `save_usage_log`, `save_user_points`. -/
def persistEvents : List Event :=
  [Event.saveChatLog, Event.saveUsageLog, Event.savePoints]

/-- Collaborator-event trace of `generate_stream_response`, parameterized
by whether `db.get_ai_config` finds a config, whether `files` is
non-empty, and the answer of `check_user_available_to_chat`.  The
files branch estimates, checks the quota, and on failure streams the 429
payload and returns before invoking or persisting; the no-files branch
(lines 460–554) builds the prompt and streams the provider response with
no estimate and no quota check, then falls through to persistence. -/
def generate_stream_response_events (configOk hasFiles quotaOk : Bool) : List Event :=
  [Event.initPoint] ++
    (if !configOk then [Event.invalidConfig]
     else if hasFiles then
       [Event.checkQuota] ++
         (if !quotaOk then [Event.emitError 429]
          else [Event.invokeProvider] ++ persistEvents)
     else
       [Event.invokeProvider] ++ persistEvents)

/-- Collaborator-event trace of `generate_text_response`: both the files
branch (lines 683–700) and the no-files branch (lines 816–833) estimate
and check the quota before invoking, return the 429 payload on failure,
and persist only after a successful invocation. -/
def generate_text_response_events (configOk hasFiles quotaOk : Bool) : List Event :=
  [Event.initPoint] ++
    (if !configOk then [Event.invalidConfig]
     else if hasFiles then
       [Event.checkQuota] ++
         (if !quotaOk then [Event.emitError 429]
          else [Event.invokeProvider] ++ persistEvents)
     else
       [Event.checkQuota] ++
         (if !quotaOk then [Event.emitError 429]
          else [Event.invokeProvider] ++ persistEvents))

/-- Collaborator-event trace of `generate_image_response` (quota check at
lines 989–1007, before `images.generate`). -/
def generate_image_response_events (configOk quotaOk : Bool) : List Event :=
  [Event.initPoint] ++
    (if !configOk then [Event.invalidConfig]
     else
       [Event.checkQuota] ++
         (if !quotaOk then [Event.emitError 429]
          else [Event.invokeProvider] ++ persistEvents))

/-- Collaborator-event trace of `generate_audio_response` (quota check at
lines 1208–1226, before `audio.speech.create`). -/
def generate_audio_response_events (configOk quotaOk : Bool) : List Event :=
  [Event.initPoint] ++
    (if !configOk then [Event.invalidConfig]
     else
       [Event.checkQuota] ++
         (if !quotaOk then [Event.emitError 429]
          else [Event.invokeProvider] ++ persistEvents))

end ChatService

open ChatService

theorem part_tokens_nonneg (enc : Encoding) (p : ContentPart) {k : Int}
    (h : part_tokens enc p = some k) : 0 ≤ k := by
  unfold part_tokens at h
  split at h
  · obtain ⟨n, -, rfl⟩ := Option.map_eq_some'.mp h
    exact Int.ofNat_nonneg n
  · split at h
    · injection h with h
      subst h
      split <;> omega
    · split at h <;> (injection h with h; omega)

theorem parts_tokens_nonneg (enc : Encoding) (ps : List ContentPart) {k : Int}
    (h : parts_tokens enc ps = some k) : 0 ≤ k := by
  induction ps generalizing k with
  | nil => injection h with h; omega
  | cons p ps ih =>
      obtain ⟨a, ha, hmap⟩ := Option.bind_eq_some.mp h
      obtain ⟨b, hb, rfl⟩ := Option.map_eq_some'.mp hmap
      have := part_tokens_nonneg enc p ha
      have := ih hb
      omega

theorem content_tokens_nonneg (enc : Encoding) (c : Content) {k : Int}
    (h : content_tokens enc c = some k) : 0 ≤ k := by
  cases c with
  | str s =>
      obtain ⟨n, -, rfl⟩ := Option.map_eq_some'.mp h
      exact Int.ofNat_nonneg n
  | parts ps => exact parts_tokens_nonneg enc ps h

theorem name_tokens_ge_neg_one (enc : Encoding) (nm : Option String) {k : Int}
    (h : name_tokens enc nm = some k) : -1 ≤ k := by
  cases nm with
  | none => injection h with h; omega
  | some n =>
      obtain ⟨t, -, rfl⟩ := Option.map_eq_some'.mp h
      have ht : (0 : Int) ≤ Int.ofNat t := Int.ofNat_nonneg t
      omega

theorem message_tokens_ge_three (enc : Encoding) (m : Message) {k : Int}
    (h : message_tokens enc m = some k) : 3 ≤ k := by
  obtain ⟨r, -, h⟩ := Option.bind_eq_some.mp h
  obtain ⟨c, hc, h⟩ := Option.bind_eq_some.mp h
  obtain ⟨n, hn, rfl⟩ := Option.map_eq_some'.mp h
  have hc' := content_tokens_nonneg enc m.content hc
  have hn' := name_tokens_ge_neg_one enc m.name hn
  have hr : (0 : Int) ≤ Int.ofNat r := Int.ofNat_nonneg r
  omega

theorem messages_tokens_nonneg (enc : Encoding) (l : List Message) {k : Int}
    (h : messages_tokens enc l = some k) : 0 ≤ k := by
  induction l generalizing k with
  | nil => injection h with h; omega
  | cons m ms ih =>
      obtain ⟨a, ha, hmap⟩ := Option.bind_eq_some.mp h
      obtain ⟨b, hb, rfl⟩ := Option.map_eq_some'.mp hmap
      have := message_tokens_ge_three enc m ha
      have := ih hb
      omega

theorem estimate_tokens_nonneg (enc : Encoding) (l : List Message) {k : Int}
    (h : estimate_tokens enc l = some k) : 0 ≤ k := by
  obtain ⟨s, hs, rfl⟩ := Option.map_eq_some'.mp h
  have := messages_tokens_nonneg enc l hs
  omega

/-- C3: the usage dict returned by `track_actual_token_usage` (post-call
metering), and the one returned by `estimate_total_tokens` whenever it
returns, satisfy `total_tokens = prompt_tokens + completion_tokens` with
all three fields non-negative — the error-recovery branch of the meter
returns the all-zero dict, which also satisfies the invariant. -/
theorem token_usage_invariant (enc : Encoding) (messages : List Message)
    (response system_template context : String) :
    (0 ≤ (track_actual_token_usage enc messages response).prompt_tokens ∧
     0 ≤ (track_actual_token_usage enc messages response).completion_tokens ∧
     (track_actual_token_usage enc messages response).total_tokens =
       (track_actual_token_usage enc messages response).prompt_tokens +
         (track_actual_token_usage enc messages response).completion_tokens) ∧
    (∀ u : TokenUsage,
      estimate_total_tokens enc messages system_template context = some u →
        0 ≤ u.prompt_tokens ∧ 0 ≤ u.completion_tokens ∧
          u.total_tokens = u.prompt_tokens + u.completion_tokens) := by
  constructor
  · unfold track_actual_token_usage
    split
    · next pc heq =>
        obtain ⟨a, ha, hmap⟩ := Option.bind_eq_some.mp heq
        obtain ⟨c, -, rfl⟩ := Option.map_eq_some'.mp hmap
        exact ⟨estimate_tokens_nonneg enc messages ha, Int.ofNat_nonneg c, rfl⟩
    · exact ⟨le_refl 0, le_refl 0, rfl⟩
  · intro u hu
    obtain ⟨base, hbase, hu⟩ := Option.bind_eq_some.mp hu
    obtain ⟨st, -, hu⟩ := Option.bind_eq_some.mp hu
    obtain ⟨ctx, -, rfl⟩ := Option.map_eq_some'.mp hu
    have h0 := estimate_tokens_nonneg enc messages hbase
    have hp : (0 : Int) ≤ base + Int.ofNat st + Int.ofNat ctx := by
      have h2 : (0 : Int) ≤ Int.ofNat st := Int.ofNat_nonneg st
      have h3 : (0 : Int) ≤ Int.ofNat ctx := Int.ofNat_nonneg ctx
      omega
    have h1 : (0 : Int) ≤ (3 * (base + Int.ofNat st + Int.ofNat ctx)).tdiv 2 :=
      Int.tdiv_nonneg (by omega) (by omega)
    exact ⟨hp, le_min h1 (by omega), rfl⟩

/-- Witness for C3 at a concrete input. -/
theorem token_usage_invariant_witness :
    (0 ≤ (track_actual_token_usage (fun s => some s.length)
            [⟨"user", Content.str "hi", none⟩] "ok").prompt_tokens ∧
     0 ≤ (track_actual_token_usage (fun s => some s.length)
            [⟨"user", Content.str "hi", none⟩] "ok").completion_tokens ∧
     (track_actual_token_usage (fun s => some s.length)
            [⟨"user", Content.str "hi", none⟩] "ok").total_tokens =
       (track_actual_token_usage (fun s => some s.length)
            [⟨"user", Content.str "hi", none⟩] "ok").prompt_tokens +
         (track_actual_token_usage (fun s => some s.length)
            [⟨"user", Content.str "hi", none⟩] "ok").completion_tokens) ∧
    (0 ≤ (13 : Int) ∧ 0 ≤ (19 : Int) ∧ (32 : Int) = 13 + 19) :=
  ⟨(token_usage_invariant (fun s => some s.length)
      [⟨"user", Content.str "hi", none⟩] "ok" "s" "").1,
   (token_usage_invariant (fun s => some s.length)
      [⟨"user", Content.str "hi", none⟩] "ok" "s" "").2
      ⟨13, 19, 32⟩ rfl⟩

/-- C1: for every `ai_config` and every pair of token counts, `get_points`
returns exactly `(inputToken*inputCost + outputToken*outputCost) * multiplier / 0.001`;
in exact arithmetic this is the same as multiplying by `1000`. -/
theorem get_points_formula (ai_config : AiConfig) (inputToken outputToken : Int) :
    get_points inputToken outputToken ai_config =
      ((inputToken : ℚ) * ai_config.inputCost + (outputToken : ℚ) * ai_config.outputCost)
        * ai_config.multiplier / (0.001 : ℚ) ∧
    get_points inputToken outputToken ai_config =
      ((inputToken : ℚ) * ai_config.inputCost + (outputToken : ℚ) * ai_config.outputCost)
        * ai_config.multiplier * 1000 := by
  refine ⟨rfl, ?_⟩
  have h : (0.001 : ℚ) = 1 / 1000 := by norm_num
  rw [get_points, h]
  ring

/-- C7: `estimate_image_tokens` returns `prompt_tokens = len(text) // 4`,
`completion_tokens = 0` and `total_tokens = prompt_tokens`, and
`estimate_audio_tokens` satisfies the same postcondition. -/
theorem estimate_image_audio_tokens_spec (text : String) :
    (estimate_image_tokens text).prompt_tokens = (text.length / 4 : Nat) ∧
    (estimate_image_tokens text).completion_tokens = 0 ∧
    (estimate_image_tokens text).total_tokens = (estimate_image_tokens text).prompt_tokens ∧
    (estimate_audio_tokens text).prompt_tokens = (text.length / 4 : Nat) ∧
    (estimate_audio_tokens text).completion_tokens = 0 ∧
    (estimate_audio_tokens text).total_tokens = (estimate_audio_tokens text).prompt_tokens := by
  exact ⟨rfl, rfl, rfl, rfl, rfl, rfl⟩

/-- C10: `estimate_image_tokens` and `estimate_audio_tokens` are
extensionally equal: image and audio billing use the same pre-call token
function. -/
theorem estimate_image_eq_estimate_audio :
    ∀ s : String, estimate_image_tokens s = estimate_audio_tokens s :=
  fun _ => rfl

theorem part_tokens_total (enc : String → Nat) (p : ContentPart) :
    part_tokens (fun s => some (enc s)) p = some (formula_part_tokens enc p) := by
  unfold part_tokens formula_part_tokens
  split_ifs <;> rfl

theorem parts_tokens_total (enc : String → Nat) (ps : List ContentPart) :
    parts_tokens (fun s => some (enc s)) ps =
      some ((ps.map (formula_part_tokens enc)).sum) := by
  induction ps with
  | nil => rfl
  | cons p ps ih => simp [parts_tokens, part_tokens_total, ih]

theorem content_tokens_total (enc : String → Nat) (c : Content) :
    content_tokens (fun s => some (enc s)) c =
      some (formula_content_tokens enc c) := by
  cases c with
  | str s => rfl
  | parts ps => exact parts_tokens_total enc ps

theorem name_tokens_total (enc : String → Nat) (nm : Option String) :
    name_tokens (fun s => some (enc s)) nm =
      some (match nm with
            | some n => Int.ofNat (enc n) - 1
            | none => 0) := by
  cases nm <;> rfl

theorem message_tokens_total (enc : String → Nat) (m : Message) :
    message_tokens (fun s => some (enc s)) m =
      some (amended_message_tokens enc m) := by
  unfold message_tokens amended_message_tokens
  rw [content_tokens_total, name_tokens_total]
  rfl

theorem messages_tokens_total (enc : String → Nat) (l : List Message) :
    messages_tokens (fun s => some (enc s)) l =
      some ((l.map (amended_message_tokens enc)).sum) := by
  induction l with
  | nil => rfl
  | cons m ms ih => simp [messages_tokens, message_tokens_total, ih]

/-- C6 (amended): for a total encoder, the pre-call estimate computes the
specification's formula **plus** the encoded length of every non-content
string field (the `role` of every message, and the `name` value when that
field is present), with the response estimate `min(int(1.5*p), 2000)`. -/
theorem estimate_total_tokens_formula (enc : String → Nat)
    (messages : List Message) (system_template context : String) :
    estimate_total_tokens (fun s => some (enc s)) messages system_template context =
      some (amended_estimate_total_tokens enc messages system_template context) := by
  unfold estimate_total_tokens estimate_tokens amended_estimate_total_tokens
    amended_prompt_tokens
  rw [messages_tokens_total]
  rfl

/-- C6 counterexample: on `[{"role": "user", "content": ""}]` with the
character-count encoder, the code counts the encoded role (`"user"`, 4
tokens) that the claim's formula omits: the code yields `{10, 15, 25}`
where the claim's formula yields `{6, 9, 15}`. -/
theorem estimate_total_tokens_counterexample :
    estimate_total_tokens (fun s => some s.length)
        [⟨"user", Content.str "", none⟩] "" "" =
      some ⟨10, 15, 25⟩ ∧
    claimed_estimate_total_tokens String.length
        [⟨"user", Content.str "", none⟩] "" "" = ⟨6, 9, 15⟩ ∧
    (⟨10, 15, 25⟩ : TokenUsage) ≠ ⟨6, 9, 15⟩ :=
  ⟨rfl, rfl, by decide⟩

/-- C5: for provider `deepseek`, `get_chat_messages` returns the system
placeholder (with empty content, since `deepseek ≠ edith`) followed by the
filtered history: turns with a non-empty prompt or response, the whole
history discarded when none remain or the first remaining turn has no
prompt, and otherwise the first turn's prompt, its response if any, and
the remaining turns in order. -/
theorem get_chat_messages_deepseek (edithPrompt : String)
    (chat_history : List ChatTurn) :
    get_chat_messages edithPrompt chat_history "deepseek" =
      ((⟨"system", Content.str "", none⟩ : Message) ::
        deepseek_history_messages chat_history, "") := by
  have h1 : pyLower "deepseek" = "deepseek" := rfl
  have h2 : (("deepseek" : String) ≠ "edith") := by decide
  have h3 : (("deepseek" : String) ≠ "anthropic") := by decide
  rcases hv : chat_history.filter (fun c => !(c.prompt == "") || !(c.response == ""))
    with - | ⟨first, rest⟩
  · simp [get_chat_messages, deepseek_history_messages, hv, h1, h2, h3]
  · by_cases hp : first.prompt = ""
    · simp [get_chat_messages, deepseek_history_messages, hv, h1, h2, h3, hp]
    · simp [get_chat_messages, deepseek_history_messages, hv, h1, h2, h3, hp]

/-- C9: `_has_content` holds of a string-content message exactly when the
stripped string is non-empty, and of a list-content message exactly when
some item has non-blank stripped text or is an `image_url`/`image` part;
in particular `content=""` fails it and `content=[{"type":"image_url",..}]`
passes it. -/
theorem _has_content_spec :
    (∀ (r s : String) (nm : Option String),
      _has_content ⟨r, Content.str s, nm⟩ = !(pyStrip s == "")) ∧
    (∀ (r : String) (ps : List ContentPart) (nm : Option String),
      _has_content ⟨r, Content.parts ps, nm⟩ =
        ps.any fun p =>
          !(pyStrip (p.ptext.getD "") == "") ||
            (p.ptype == some "image_url" || p.ptype == some "image")) ∧
    _has_content ⟨"user", Content.str "", none⟩ = false ∧
    _has_content ⟨"user", Content.parts [⟨some "image_url", none, some "high"⟩],
      none⟩ = true := by
  refine ⟨?_, ?_, by decide, by decide⟩
  · intro r s nm
    show (if s == "" then false else !(pyStrip s == "")) = !(pyStrip s == "")
    by_cases hs : s == ""
    · rw [if_pos hs]
      have hs' : s = "" := by simpa using hs
      subst hs'
      rfl
    · rw [if_neg hs]
  · intro r ps nm
    show (if ps == [] then false else ps.any item_has_content) =
      ps.any fun p =>
        !(pyStrip (p.ptext.getD "") == "") ||
          (p.ptype == some "image_url" || p.ptype == some "image")
    by_cases hps : ps == ([] : List ContentPart)
    · rw [if_pos hps]
      have hps' : ps = [] := by simpa using hps
      subst hps'
      rfl
    · rw [if_neg hps]
      rfl

/-- C8: a provider string that lowercases to none of the nine recognized
vendors deterministically yields the plain OpenAI client with the config's
model id, the 2000-token cap, and the requested streaming flag. -/
theorem _get_llm_unknown_provider (ai_config : AiConfig) (isStream : Bool)
    (h : pyLower ai_config.provider ∉
      (["anthropic", "deepseek", "google", "xai", "ollama", "mistralai",
        "cerebras", "edith", "openrouter"] : List String)) :
    _get_llm ai_config isStream =
      LLMClient.chatOpenAI ai_config.model 2000 isStream none := by
  simp only [List.mem_cons, List.not_mem_nil, or_false] at h
  push_neg at h
  obtain ⟨h1, h2, h3, h4, h5, h6, h7, h8, h9⟩ := h
  unfold _get_llm
  rw [if_neg h1, if_neg h2, if_neg h3, if_neg h4, if_neg h5, if_neg h6,
    if_neg (not_or.mpr ⟨h7, h8⟩), if_neg h9]

/-- Witness for C8 at a concrete unknown provider string. -/
theorem _get_llm_unknown_provider_witness :
    _get_llm ⟨"SomeNewVendor", "vendor-model-1", 1, 2, 3, false⟩ true =
      LLMClient.chatOpenAI "vendor-model-1" 2000 true none :=
  _get_llm_unknown_provider ⟨"SomeNewVendor", "vendor-model-1", 1, 2, 3, false⟩
    true (by decide)

theorem flatten_history_role (cs : List ChatTurn) :
    ∀ m ∈ flatten_history cs, m.role = "user" ∨ m.role = "assistant" := by
  induction cs with
  | nil => intro m hm; simp [flatten_history] at hm
  | cons c cs ih =>
      intro m hm
      simp only [flatten_history, List.append_assoc, List.mem_append] at hm
      rcases hm with hm | hm | hm
      · left
        split at hm <;> simp_all [userMessage]
      · right
        split at hm <;> simp_all [assistantMessage]
      · exact ih m hm

theorem get_chat_messages_anthropic (edithPrompt : String)
    (hist : List ChatTurn) :
    get_chat_messages edithPrompt hist "anthropic" = (flatten_history hist, "") := by
  have h1 : pyLower "anthropic" = "anthropic" := rfl
  have h2 : (("anthropic" : String) ≠ "edith") := by decide
  have h3 : ¬(("anthropic" : String) = "deepseek") := by decide
  simp [get_chat_messages, h1, h2, h3]

theorem get_chat_messages_anthropic_no_system (edithPrompt : String)
    (hist : List ChatTurn) :
    ∀ m ∈ (get_chat_messages edithPrompt hist "anthropic").1, m.role ≠ "system" := by
  intro m hm
  rw [get_chat_messages_anthropic] at hm
  rcases flatten_history_role hist m hm with h | h <;> simp [h]

theorem fold_system_into_role (system_content : String) (m : Message) :
    (fold_system_into system_content m).role = m.role := by
  unfold fold_system_into
  split <;> rfl

theorem prepend_system_no_system (system_content : String) :
    ∀ l : List Message, (∀ m ∈ l, m.role ≠ "system") →
      ∀ m ∈ prepend_system_to_first_user system_content l, m.role ≠ "system" := by
  intro l
  induction l with
  | nil => intro _ m hm; simp [prepend_system_to_first_user] at hm
  | cons a as ih =>
      intro h m hm
      unfold prepend_system_to_first_user at hm
      split at hm
      · rcases List.mem_cons.mp hm with rfl | hm
        · rw [fold_system_into_role]
          exact h a (List.mem_cons_self a as)
        · exact h m (List.mem_cons_of_mem a hm)
      · rcases List.mem_cons.mp hm with rfl | hm
        · exact h m (List.mem_cons_self m as)
        · exact ih (fun x hx => h x (List.mem_cons_of_mem a hx)) m hm

theorem firstUser_prepend (system_content : String) :
    ∀ (l : List Message) (m : Message), firstUser l = some m →
      firstUser (prepend_system_to_first_user system_content l) =
        some (fold_system_into system_content m) := by
  intro l
  induction l with
  | nil => intro m hm; cases hm
  | cons a as ih =>
      intro m hm
      unfold firstUser at hm
      unfold prepend_system_to_first_user
      split at hm
      · next ha =>
          injection hm with hm
          subst hm
          rw [if_pos ha]
          unfold firstUser
          rw [if_pos (by rw [fold_system_into_role]; exact ha)]
      · next ha =>
          rw [if_neg ha]
          unfold firstUser
          rw [if_neg ha]
          exact ih m hm

theorem firstUser_isSome_of_user_mem :
    ∀ (l : List Message) (m : Message), m ∈ l → m.role = "user" →
      ∃ m', firstUser l = some m' := by
  intro l
  induction l with
  | nil => intro m hm; cases hm
  | cons a as ih =>
      intro m hm hr
      by_cases ha : a.role = "user"
      · exact ⟨a, by unfold firstUser; rw [if_pos ha]⟩
      · rcases List.mem_cons.mp hm with rfl | hm
        · exact absurd hr ha
        · obtain ⟨m', hm'⟩ := ih m hm hr
          exact ⟨m', by unfold firstUser; rw [if_neg ha]; exact hm'⟩

theorem build_direct_messages_anthropic (system_content : String)
    (history : List Message) (current : Message) :
    build_direct_messages "anthropic" system_content history current =
      prepend_system_to_first_user system_content
        (((history.filter _has_content).map fun m =>
            (⟨m.role, m.content, none⟩ : Message)) ++ [current]) := by
  have h1 : ¬(pyLower "anthropic" ≠ "anthropic") := by decide
  simp only [build_direct_messages]
  rw [if_neg h1]
  rw [if_pos ⟨rfl, by simp⟩]
  simp

/-- C4 (amended): for provider `anthropic`, `get_chat_messages` emits no
`role:system` entry, and the `direct_messages` list of the multimodal
invocation path contains no `role:system` entry, with the system content
folded into the first user message (prefixed onto string content, or
inserted as the leading text part of list content).  The
`ChatPromptTemplate`-based text paths, by contrast, do emit a system
template entry even for anthropic (see the counterexample). -/
theorem anthropic_message_assembly (edithPrompt system_content : String)
    (chat_history : List ChatTurn) (current_question_msg : Message)
    (hcur : current_question_msg.role = "user") :
    (∀ m ∈ (get_chat_messages edithPrompt chat_history "anthropic").1,
      m.role ≠ "system") ∧
    (∀ m ∈ build_direct_messages "anthropic" system_content
        (get_chat_messages edithPrompt chat_history "anthropic").1
        current_question_msg,
      m.role ≠ "system") ∧
    system_in_first_user system_content
      (build_direct_messages "anthropic" system_content
        (get_chat_messages edithPrompt chat_history "anthropic").1
        current_question_msg) := by
  have hns := get_chat_messages_anthropic_no_system edithPrompt chat_history
  refine ⟨hns, ?_, ?_⟩
  · rw [build_direct_messages_anthropic]
    apply prepend_system_no_system
    intro m hm
    rcases List.mem_append.mp hm with hm | hm
    · obtain ⟨m', hm', rfl⟩ := List.mem_map.mp hm
      exact hns m' (List.mem_of_mem_filter hm')
    · rw [List.mem_singleton.mp hm, hcur]
      decide
  · rw [build_direct_messages_anthropic]
    have hmem : current_question_msg ∈
        (((get_chat_messages edithPrompt chat_history "anthropic").1.filter
            _has_content).map fun m => (⟨m.role, m.content, none⟩ : Message)) ++
          [current_question_msg] := by simp
    obtain ⟨m0, hm0⟩ := firstUser_isSome_of_user_mem _ current_question_msg hmem hcur
    refine ⟨fold_system_into system_content m0,
      firstUser_prepend system_content _ m0 hm0, ?_⟩
    rcases hc : m0.content with s | ps
    · exact Or.inl ⟨s, by simp [fold_system_into, hc]⟩
    · exact Or.inr ⟨ps, by simp [fold_system_into, hc]⟩

/-- Witness for C4's amended theorem at a concrete input. -/
theorem anthropic_message_assembly_witness :
    (∀ m ∈ (get_chat_messages "" [] "anthropic").1, m.role ≠ "system") ∧
    (∀ m ∈ build_direct_messages "anthropic" "SYS"
        (get_chat_messages "" [] "anthropic").1 (userMessage "q"),
      m.role ≠ "system") ∧
    system_in_first_user "SYS"
      (build_direct_messages "anthropic" "SYS"
        (get_chat_messages "" [] "anthropic").1 (userMessage "q")) :=
  anthropic_message_assembly "" "SYS" [] (userMessage "q") rfl

/-- C4 counterexample: in the no-files branch of `generate_text_response`
the assembled `ChatPromptTemplate` message list starts with a system
template entry even for provider `anthropic`, so the message list sent to
the model does contain a `role:system` entry. -/
theorem anthropic_template_has_system :
    (generate_text_no_files_prompt "" [] "anthropic" "hi").any
      (fun m => m.role == "system") = true := by decide

/-- C2: evaluated at its failing input — the streamed-chat flow with no
files and a point service that would refuse — the code's trace performs no
quota check at all, invokes the provider, and persists both log records,
where the claim requires a pre-invocation check, a 429 error, and nothing
persisted. -/
theorem stream_no_files_skips_quota_gate :
    Event.checkQuota ∉ generate_stream_response_events true false false ∧
    Event.invokeProvider ∈ generate_stream_response_events true false false ∧
    Event.saveChatLog ∈ generate_stream_response_events true false false ∧
    Event.saveUsageLog ∈ generate_stream_response_events true false false ∧
    (Event.emitError 429) ∉ generate_stream_response_events true false false := by
  decide
